import Mathlib

set_option maxHeartbeats 1000000

/-!
Shallow embedding of the `product_loans` Odoo module: `models/stock_picking.py`,
`models/loan_tracking_detail.py` and `wizard/loan_resolution_wizard.py`.

Conventions used throughout:
* datetimes and dates are `Nat` timestamps; monetary amounts and quantities are `ℚ`
  (Odoo float fields);
* a record operation that can raise `ValidationError` or `UserError` is a function
  into `Except`; returning `.error` models the exception aborting the enclosing
  transaction, so no partial state is produced;
* selection fields become inductives whose constructors are the selection keys;
* an `@api.constrains` method runs on every write that touches one of its declared
  fields; where a modelled write touches such a field the model composes the
  constraint check explicitly.
-/

/-- Selection keys of `stock.picking.loan_state`.  The field has `default='active'`,
so on the records the module manipulates it is always one of these five keys. -/
inductive LoanState
  | active | inTrial | resolving | partiallyResolved | completed
deriving DecidableEq, Repr

/-- Selection keys of `loan.tracking.detail.status`. -/
inductive TrackStatus
  | active | sold | returnedGood | returnedDamaged | returnedDefective | pendingResolution
deriving DecidableEq, Repr

/-- `product.product.tracking` selection keys. -/
inductive Tracking
  | serial | lot | none
deriving DecidableEq, Repr

/-- One `loan.tracking.detail` row.  `partner_id`, `days_in_loan` and `is_overdue`
are stored computed fields on the source model; they are carried here as plain
stored values. -/
structure LoanTrackingDetail where
  id : Nat
  picking_id : Nat
  product_id : Nat
  lot_id : Option Nat
  quantity : ℚ
  status : TrackStatus
  loan_date : Nat
  resolution_date : Option Nat
  partner_id : Option Nat
  original_cost : ℚ
  sale_price : ℚ
  sale_order_line_id : Option Nat
  return_picking_id : Option Nat
  days_in_loan : Int
  is_overdue : Bool
  notes : String
  return_condition_notes : String
deriving DecidableEq, Repr

/-- A tracking row with the model's field defaults, used to build concrete rows. -/
def blank_detail : LoanTrackingDetail :=
  { id := 0, picking_id := 0, product_id := 0, lot_id := none, quantity := 1,
    status := .active, loan_date := 0, resolution_date := none, partner_id := none,
    original_cost := 0, sale_price := 0, sale_order_line_id := none,
    return_picking_id := none, days_in_loan := 0, is_overdue := false,
    notes := "", return_condition_notes := "" }

/-- The loan-relevant slice of a `stock.picking` record.  `is_overdue` is the stored
computed field `_compute_overdue_days` maintains. -/
structure StockPicking where
  id : Nat
  is_loan : Bool
  loan_state : LoanState
  is_overdue : Bool
  loan_notes : String
deriving DecidableEq, Repr

/-- The slice of a `sale.order.line` the module reads back (`id`, `price_unit`,
`product_id`, `name`). -/
structure SaleOrderLine where
  id : Nat
  product_id : Nat
  price_unit : ℚ
  name : String
deriving DecidableEq, Repr

/-- Python `x or d` for an optional float argument: `None` and `0.0` are falsy. -/
def py_float_or (x : Option ℚ) (d : ℚ) : ℚ :=
  match x with
  | some v => if v = 0 then d else v
  | none => d

/-- `LoanTrackingDetail._check_resolution_consistency`: raises when a sold row has
no sale order line or a returned row has no return transfer, and otherwise stamps
`resolution_date` with the current time when the row left `active` without a date.
(The source performs that stamping inside the constraint method itself.) -/
def check_resolution_consistency (e : LoanTrackingDetail) (now : Nat) :
    Except String LoanTrackingDetail :=
  if e.status = .sold ∧ e.sale_order_line_id = none then
    .error "Los préstamos vendidos deben tener una línea de orden de venta asociada."
  else if (e.status = .returnedGood ∨ e.status = .returnedDamaged ∨
      e.status = .returnedDefective) ∧ e.return_picking_id = none then
    .error "Los préstamos devueltos deben tener una transferencia de devolución asociada."
  else if e.status ≠ .active ∧ e.resolution_date = none then
    .ok { e with resolution_date := some now }
  else
    .ok e

/-- `LoanTrackingDetail._check_tracking_consistency`, for a row whose product has
the given `tracking` value. -/
def check_tracking_consistency (tracking : Tracking) (e : LoanTrackingDetail) :
    Except String Unit :=
  match tracking with
  | .serial =>
    if e.lot_id = none then
      .error "El producto requiere número de serie."
    else if e.quantity ≠ 1 then
      .error "Los productos con número de serie deben tener cantidad = 1."
    else
      .ok ()
  | .lot =>
    if e.lot_id = none then
      .error "El producto requiere número de lote."
    else
      .ok ()
  | .none =>
    if e.lot_id ≠ none then
      .error "El producto no usa rastreo por serie/lote."
    else
      .ok ()

/-- `LoanTrackingDetail.action_mark_as_sold`.  The `sale_order_line` argument may be
an empty recordset (`none`), whose `id` reads as NULL and `price_unit` as `0.0`.
The write touches `status`/`resolution_date`/`sale_order_line_id`, so
`_check_resolution_consistency` runs on it. -/
def action_mark_as_sold (e : LoanTrackingDetail) (sale_order_line : Option SaleOrderLine)
    (sale_price : Option ℚ) (now : Nat) : Except String LoanTrackingDetail :=
  if e.status ≠ .active then
    .error "Solo los préstamos activos pueden marcarse como vendidos."
  else
    check_resolution_consistency
      { e with
        status := .sold,
        sale_order_line_id := sale_order_line.map (·.id),
        sale_price := py_float_or sale_price
          (match sale_order_line with | some l => l.price_unit | none => 0),
        resolution_date := some now } now

/-- The `status_mapping` dictionary of `action_mark_as_returned`:
`dict.get(condition, 'returned_good')` falls back to `returned_good`. -/
def status_mapping (condition : String) : TrackStatus :=
  if condition = "good" then .returnedGood
  else if condition = "damaged" then .returnedDamaged
  else if condition = "defective" then .returnedDefective
  else .returnedGood

/-- `LoanTrackingDetail.action_mark_as_returned`.  The write touches
`status`/`resolution_date`/`return_picking_id`, so `_check_resolution_consistency`
runs on it. -/
def action_mark_as_returned (e : LoanTrackingDetail) (return_picking_id : Nat)
    (condition : String) (notes : Option String) (now : Nat) :
    Except String LoanTrackingDetail :=
  if e.status ≠ .active ∧ e.status ≠ .pendingResolution then
    .error "Solo los préstamos activos pueden marcarse como devueltos."
  else
    check_resolution_consistency
      { e with
        status := status_mapping condition,
        return_picking_id := some return_picking_id,
        resolution_date := some now,
        return_condition_notes := notes.getD "" } now

/-- The `valid_transitions` table of `StockPicking._validate_state_transition`. -/
def valid_transitions : LoanState → List LoanState
  | .active => [.inTrial, .resolving]
  | .inTrial => [.resolving, .completed]
  | .resolving => [.partiallyResolved, .completed]
  | .partiallyResolved => [.resolving, .completed]
  | .completed => []

/-- `StockPicking._validate_state_transition`.  The raised `ValidationError` message
interpolates both the current and the requested state, so the error value carries
the pair `(source, target)`; `transition_error_message` renders the source text. -/
def validate_state_transition (p : StockPicking) (new_state : LoanState) :
    Except (LoanState × LoanState) Unit :=
  if new_state ∈ valid_transitions p.loan_state then .ok ()
  else .error (p.loan_state, new_state)

/-- The selection keys interpolated into the f-string of the validation message. -/
def loan_state_key : LoanState → String
  | .active => "active"
  | .inTrial => "in_trial"
  | .resolving => "resolving"
  | .partiallyResolved => "partially_resolved"
  | .completed => "completed"

/-- The message of the `ValidationError` raised by `_validate_state_transition`. -/
def transition_error_message (source target : LoanState) : String :=
  "Transición de estado no válida: " ++ loan_state_key source ++ " → " ++
    loan_state_key target

/-- `StockPicking.write` restricted to a `loan_state` write on one record: the
transition is validated only when the record has `is_loan` set. -/
def write_loan_state (p : StockPicking) (new_state : LoanState) :
    Except (LoanState × LoanState) StockPicking :=
  if p.is_loan then
    match validate_state_transition p new_state with
    | .error err => .error err
    | .ok _ => .ok { p with loan_state := new_state }
  else
    .ok { p with loan_state := new_state }

/-- The dictionary returned by `LoanTrackingDetail.get_loan_analytics`. -/
structure LoanAnalytics where
  total_loans : Nat
  active_loans : Nat
  overdue_loans : Nat
  sold_conversions : Nat
  returns_good : Nat
  returns_damaged : Nat
  avg_days_in_loan : ℚ
  conversion_rate : ℚ
deriving DecidableEq, Repr

/-- The search domain built by `get_loan_analytics`: each clause is appended only
when its filter argument is truthy (in particular an empty `partner_ids` list is
falsy and adds no clause). -/
def analytics_domain (date_from date_to : Option Nat) (partner_ids : Option (List Nat))
    (records : List LoanTrackingDetail) : List LoanTrackingDetail :=
  records.filter (fun r =>
    (match date_from with | some d => decide (d ≤ r.loan_date) | none => true) &&
    (match date_to with | some d => decide (r.loan_date ≤ d) | none => true) &&
    (match partner_ids with
      | some ps =>
        if ps.isEmpty then true
        else (match r.partner_id with | some p => ps.contains p | none => false)
      | none => true))

/-- The aggregation body of `get_loan_analytics` over the searched records; the
`if records else 0` guards protect the two divisions. -/
def analytics_of (records : List LoanTrackingDetail) : LoanAnalytics :=
  { total_loans := records.length,
    active_loans := (records.filter (fun r => r.status == .active)).length,
    overdue_loans := (records.filter (·.is_overdue)).length,
    sold_conversions := (records.filter (fun r => r.status == .sold)).length,
    returns_good := (records.filter (fun r => r.status == .returnedGood)).length,
    returns_damaged := (records.filter (fun r =>
      r.status == .returnedDamaged || r.status == .returnedDefective)).length,
    avg_days_in_loan :=
      if records.isEmpty then 0
      else ((records.map (·.days_in_loan)).sum : ℚ) / (records.length : ℚ),
    conversion_rate :=
      if records.isEmpty then 0
      else ((records.filter (fun r => r.status == .sold)).length : ℚ) /
        (records.length : ℚ) * 100 }

/-- `LoanTrackingDetail.get_loan_analytics`: search with the filter domain, then
aggregate. -/
def get_loan_analytics (date_from date_to : Option Nat) (partner_ids : Option (List Nat))
    (records : List LoanTrackingDetail) : LoanAnalytics :=
  analytics_of (analytics_domain date_from date_to partner_ids records)

/-- A `mail.activity` record as the overdue sweep reads and writes it (the fields
its search domain and `create` values use; the summary and note bodies are not
consulted by any search). -/
structure MailActivity where
  res_model : String
  res_id : Nat
  activity_type_name : String
  date_deadline : Nat
deriving DecidableEq, Repr

/-- The environment of the overdue sweep: the current date, the name of the
activity type the sweep creates activities with (`env.ref('mail.mail_activity_data_todo')`
of the external mail module, falling back to the first available type), the
pickings, and the existing activities. -/
structure LoanEnv where
  today : Nat
  todo_activity_type_name : String
  pickings : List StockPicking
  activities : List MailActivity
deriving DecidableEq, Repr

def starts_with_chars : List Char → List Char → Bool
  | [], _ => true
  | _ :: _, [] => false
  | c :: cs, d :: ds => c == d && starts_with_chars cs ds

def contains_chars (needle : List Char) : List Char → Bool
  | [] => needle.isEmpty
  | d :: ds => starts_with_chars needle (d :: ds) || contains_chars needle ds

/-- Odoo's `ilike` operator: case-insensitive containment of the pattern. -/
def ilike_contains (pattern s : String) : Bool :=
  contains_chars (pattern.data.map Char.toLower) (s.data.map Char.toLower)

/-- `StockPicking._create_overdue_activity`: search for an open matching reminder
(`res_model = 'stock.picking'`, same `res_id`, activity-type name
`ilike 'préstamo vencido'`, deadline today or later) and return without creating
when one exists; otherwise create an activity carrying the to-do activity type
with deadline today. -/
def create_overdue_activity (env : LoanEnv) (p : StockPicking) : LoanEnv :=
  let existing := env.activities.filter (fun a =>
    a.res_model == "stock.picking" && a.res_id == p.id &&
    ilike_contains "préstamo vencido" a.activity_type_name &&
    decide (env.today ≤ a.date_deadline))
  if existing.isEmpty then
    { env with
      activities := env.activities ++
        [{ res_model := "stock.picking", res_id := p.id,
           activity_type_name := env.todo_activity_type_name,
           date_deadline := env.today }] }
  else
    env

/-- `StockPicking._cron_check_overdue_loans`: run `_create_overdue_activity` for
every transfer with `is_overdue` set and `loan_state` in the active family. -/
def cron_check_overdue_loans (env : LoanEnv) : LoanEnv :=
  let overdue := env.pickings.filter (fun p =>
    p.is_overdue && (p.loan_state == .active || p.loan_state == .inTrial ||
      p.loan_state == .partiallyResolved))
  overdue.foldl create_overdue_activity env

/-- The sweep input for the C5 run: one overdue active loan, no activities yet, and
the stock name of the external `mail.mail_activity_data_todo` activity type. -/
def c5_env : LoanEnv :=
  { today := 50,
    todo_activity_type_name := "To-Do",
    pickings := [{ id := 1, is_loan := true, loan_state := .active, is_overdue := true,
                   loan_notes := "" }],
    activities := [] }

/-- A `loan.valuation.tracker` row; `current_cost` and `valuation_difference` hold
the STORED values of the two `store=True` computed fields. -/
structure LoanValuationTracker where
  picking_id : Nat
  product_id : Nat
  lot_id : Option Nat
  loan_date : Nat
  original_cost : ℚ
  current_cost : ℚ
  valuation_difference : ℚ
  is_resolved : Bool
deriving DecidableEq, Repr

/-- The live product costs next to the stored valuation rows. -/
structure ValuationEnv where
  standard_price : Nat → ℚ
  trackers : List LoanValuationTracker

/-- `LoanValuationTracker._compute_current_cost`: copy the product's live
`standard_price` into the stored field (the row's product reference is required,
so the `0.0` branch for a missing product never applies here). -/
def compute_current_cost (price : Nat → ℚ) (r : LoanValuationTracker) :
    LoanValuationTracker :=
  { r with current_cost := price r.product_id }

/-- `LoanValuationTracker._compute_valuation_difference`. -/
def compute_valuation_difference (r : LoanValuationTracker) : LoanValuationTracker :=
  { r with valuation_difference := r.current_cost - r.original_cost }

/-- The declared dependency list of the stored computed field `current_cost`:
`@api.depends('product_id')` — and nothing else. -/
def current_cost_depends : List String := ["product_id"]

/-- Change a product's `standard_price`.  A stored computed field is recomputed
exactly when a field in its declared dependency list is written; the write touches
`standard_price`, which is not in `current_cost_depends`, so no valuation row is
recomputed (and therefore neither is the `valuation_difference` that depends on
`current_cost`). -/
def set_standard_price (env : ValuationEnv) (pid : Nat) (new_price : ℚ) : ValuationEnv :=
  let price := fun i => if i = pid then new_price else env.standard_price i
  { standard_price := price,
    trackers :=
      if current_cost_depends.contains "standard_price" then
        env.trackers.map (fun r => compute_valuation_difference (compute_current_cost price r))
      else
        env.trackers }

/-- Reading a `store=True` computed field serves the stored value. -/
def read_current_cost (r : LoanValuationTracker) : ℚ := r.current_cost

/-- One row of `LoanValuationTracker.create_for_loan` for a non-serial move of
product `pid`: `original_cost` is snapshotted from the live standard price and the
two stored computed fields are computed once at creation. -/
def create_for_loan_row (env : ValuationEnv) (picking pid loan_date : Nat) :
    LoanValuationTracker :=
  compute_valuation_difference (compute_current_cost env.standard_price
    { picking_id := picking, product_id := pid, lot_id := none, loan_date := loan_date,
      original_cost := env.standard_price pid, current_cost := 0,
      valuation_difference := 0, is_resolved := false })

/-- The product costs before the C6 price change: every product costs 100. -/
def c6_price0 : Nat → ℚ := fun _ => 100

/-- The valuation state for the C6 run: one row created for product 1 while its
standard cost was 100. -/
def c6_env : ValuationEnv :=
  { standard_price := c6_price0,
    trackers := [create_for_loan_row { standard_price := c6_price0, trackers := [] } 1 1 0] }

/-- The notes `action_mark_as_returned` receives from the automatic return flow
(the source interpolates the current datetime into an f-string). -/
def auto_return_notes (now : Nat) : String :=
  "Devuelto automáticamente el " ++ toString now

/-- Full automatic return of one row during `_update_loan_tracking_on_return`
(its call site guarantees `status = active`, where `action_mark_as_returned`
cannot fail, so the error branch below is unreachable there). -/
def mark_returned_auto (e : LoanTrackingDetail) (rp now : Nat) : LoanTrackingDetail :=
  match action_mark_as_returned e rp "good" (some (auto_return_notes now)) now with
  | .ok r => r
  | .error _ => e

/-- The partial-return split of `_update_loan_tracking_on_return`: `record.copy`
with the overriding values.  The database assigns the copy a fresh id; nothing in
this development depends on ids of created rows, so the model keeps the source
row's.  The shrinking write on the original row touches only `quantity`, whose
constraint (`_check_tracking_consistency`) always passes on the non-serial rows
this branch handles. -/
def split_returned_copy (e : LoanTrackingDetail) (part : ℚ) (rp now : Nat) :
    LoanTrackingDetail :=
  { e with
    quantity := part,
    status := .returnedGood,
    return_picking_id := some rp,
    resolution_date := some now,
    return_condition_notes := "Devolución parcial automática el " ++ toString now }

/-- Does a row belong to the search result of the non-serial branch: same original
loan, same product, still active? -/
def is_active_for (olid pid : Nat) (e : LoanTrackingDetail) : Bool :=
  e.picking_id == olid && e.product_id == pid && e.status == TrackStatus.active

/-- The greedy consumption loop of `_update_loan_tracking_on_return` for one
non-serial move: walk the original loan's rows in listing order with the running
`remaining_qty`; fully mark a matching row returned when its quantity fits within
the remainder, otherwise split it (new returned row for the partial quantity,
original row shrunk) and exhaust the remainder; matching rows reached after the
remainder is exhausted stay untouched (the loop's `break`).  Returns the walked
rows and the rows created by splits, which the database appends after the
existing rows. -/
def consume_active_returns (olid pid rp now : Nat) :
    ℚ → List LoanTrackingDetail → List LoanTrackingDetail × List LoanTrackingDetail
  | _, [] => ([], [])
  | remaining, e :: rest =>
    if is_active_for olid pid e = true ∧ 0 < remaining then
      if e.quantity ≤ remaining then
        let res := consume_active_returns olid pid rp now (remaining - e.quantity) rest
        (mark_returned_auto e rp now :: res.1, res.2)
      else
        let res := consume_active_returns olid pid rp now 0 rest
        ({ e with quantity := e.quantity - remaining } :: res.1,
         split_returned_copy e remaining rp now :: res.2)
    else
      let res := consume_active_returns olid pid rp now remaining rest
      (e :: res.1, res.2)

/-- `_update_loan_tracking_on_return` restricted to one non-serial return move of
product `pid` with confirmed quantity `qty_returned` (the loop `continue`s on a
non-positive confirmed quantity).  The row list is kept in the model's listing
order (`_order = 'loan_date desc, id desc'`). -/
def update_non_serial_return (olid pid rp now : Nat) (qty_returned : ℚ)
    (entries : List LoanTrackingDetail) : List LoanTrackingDetail :=
  if qty_returned ≤ 0 then entries
  else
    let res := consume_active_returns olid pid rp now qty_returned entries
    res.1 ++ res.2

/-- `StockPicking._update_original_loan_state` (run after a return transfer is
validated): complete the loan when no active rows remain, mark it partially
resolved when some but not all rows are still active, and otherwise leave it
unchanged.  The assignments are ordinary `loan_state` writes, hence they pass
through `write` and its transition validation. -/
def update_original_loan_state_on_return (original : StockPicking)
    (entries : List LoanTrackingDetail) : Except (LoanState × LoanState) StockPicking :=
  let active := entries.filter (fun r =>
    r.picking_id == original.id && r.status == TrackStatus.active)
  if active.isEmpty then
    write_loan_state original .completed
  else
    let total := entries.filter (fun r => r.picking_id == original.id)
    if active.length < total.length then
      write_loan_state original .partiallyResolved
    else
      .ok original

/-- The end-to-end reconciliation for a confirmed return transfer `rp` carrying a
single non-serial move: greedy consumption, then the original-loan state update.
A raised `ValidationError` aborts the surrounding transaction, undoing the row
updates, which the `Except` threading models. -/
def update_loan_tracking_on_return_one_move (original : StockPicking)
    (rp now pid : Nat) (qty_returned : ℚ) (entries : List LoanTrackingDetail) :
    Except (LoanState × LoanState) (List LoanTrackingDetail × StockPicking) :=
  let new_entries := update_non_serial_return original.id pid rp now qty_returned entries
  match update_original_loan_state_on_return original new_entries with
  | .error err => .error err
  | .ok p => .ok (new_entries, p)

/-- Total quantity over a set of tracking rows. -/
def sum_quantity (l : List LoanTrackingDetail) : ℚ :=
  (l.map (·.quantity)).sum

/-- Total still-active quantity of product `pid` on loan `olid`. -/
def active_quantity (olid pid : Nat) (l : List LoanTrackingDetail) : ℚ :=
  ((l.filter (is_active_for olid pid)).map (·.quantity)).sum

/-- Python `s or d` for an optional string: `None` and `''` are falsy. -/
def py_str_or (x : Option String) (d : String) : String :=
  match x with
  | some s => if s = "" then d else s
  | none => d

/-- Python `needle in hay` on strings. -/
def str_contains (needle hay : String) : Bool :=
  contains_chars needle.data hay.data

/-- The `resolution_type` selection of a wizard line (`return` is a Lean keyword,
so that key is `ret` here). -/
inductive ResolutionChoice
  | buy | ret | keepLoan
deriving DecidableEq, Repr

/-- One `loan.resolution.wizard.line`.  `tracking`, `lot_name` carry the values the
wizard reads off the line's product and lot records during grouping and
matching. -/
structure ResolutionLine where
  tracking_detail_id : Nat
  product_id : Nat
  tracking : Tracking
  lot_id : Option Nat
  lot_name : Option String
  loaned_qty : ℚ
  qty_to_resolve : ℚ
  resolution_type : Option ResolutionChoice
  unit_price : ℚ
  return_condition : String
deriving DecidableEq, Repr

/-- `LoanResolutionWizard._validate_resolution`: non-empty lines, every line with a
decision, positive quantities within the loaned amount, and positive prices on
buy lines (the source messages also interpolate the product name). -/
def validate_resolution (lines : List ResolutionLine) : Except String Unit :=
  if lines.isEmpty then
    .error "No hay productos para resolver."
  else if lines.any (fun l => decide (l.resolution_type = none)) then
    .error "Todas las líneas deben tener un tipo de resolución definido."
  else
    match lines.findSome? (fun l =>
      if l.qty_to_resolve ≤ 0 then
        some "La cantidad a resolver debe ser mayor a 0"
      else if l.loaned_qty < l.qty_to_resolve then
        some "No se puede resolver más cantidad de la prestada"
      else
        none) with
    | some msg => .error msg
    | none =>
      match (lines.filter (fun l =>
          decide (l.resolution_type = some ResolutionChoice.buy))).findSome?
          (fun l =>
            if l.unit_price ≤ 0 then
              some "El precio de venta debe ser mayor a 0"
            else
              none) with
      | some msg => .error msg
      | none => .ok ()

/-- One value of the `grouped_lines` dictionary of `_create_sale_order`. -/
structure SaleGroup where
  product_id : Nat
  quantity : ℚ
  price : ℚ
  lot_name : Option String
deriving DecidableEq, Repr

/-- The dictionary key of `_create_sale_order`: `(product, price)` for ordinary
products, `(product, price, lot id or 0)` for serial-tracked ones (the third
component distinguishes the two key shapes). -/
def sale_group_key (l : ResolutionLine) : Nat × ℚ × Option Nat :=
  if l.tracking = Tracking.serial then
    (l.product_id, l.unit_price, some (l.lot_id.getD 0))
  else
    (l.product_id, l.unit_price, none)

/-- Insert one buy line into the grouped dictionary (Python dicts preserve
insertion order). -/
def add_sale_line (gs : List ((Nat × ℚ × Option Nat) × SaleGroup))
    (l : ResolutionLine) : List ((Nat × ℚ × Option Nat) × SaleGroup) :=
  let key := sale_group_key l
  if gs.any (fun g => decide (g.1 = key)) then
    gs.map (fun g =>
      if g.1 = key then
        (g.1, { g.2 with quantity := g.2.quantity + l.qty_to_resolve })
      else g)
  else
    gs ++ [(key, { product_id := l.product_id, quantity := l.qty_to_resolve,
                   price := l.unit_price, lot_name := l.lot_name })]

/-- `LoanResolutionWizard._create_sale_order`: group the buy lines and create one
sale order line per group (with the conversion name, carrying the serial when
present).  The order lines' fresh database ids are modelled by position. -/
def create_sale_order (sale_lines : List ResolutionLine) : List SaleOrderLine :=
  ((sale_lines.foldl add_sale_line []).enum).map (fun p =>
    { id := 1000 + p.1, product_id := p.2.2.product_id, price_unit := p.2.2.price,
      name :=
        match p.2.2.lot_name with
        | some n => "Conversión préstamo - S/N: " ++ n
        | none => "Conversión de préstamo" })

/-- The sale-line lookup of `_process_sales`: same product and, when the wizard
line carries a lot, the lot's name occurring in the order line's name. -/
def sol_matches (l : ResolutionLine) (sol : SaleOrderLine) : Bool :=
  sol.product_id == l.product_id &&
    (match l.lot_id with
     | none => true
     | some _ => str_contains (l.lot_name.getD "") sol.name)

/-- Apply a fallible write to the tracking row with the given id (wizard lines
reference existing rows; other rows pass through). -/
def update_detail (entries : List LoanTrackingDetail) (tid : Nat)
    (f : LoanTrackingDetail → Except String LoanTrackingDetail) :
    Except String (List LoanTrackingDetail) :=
  entries.mapM (fun e => if e.id = tid then f e else pure e)

/-- `LoanResolutionWizard._process_sales`: create the sale order from the buy
lines, then mark each buy line's whole tracking row sold with the first matching
order line (`[:1]`) and the line's unit price.  The sale order itself and the
link on the original picking are sales-subsystem effects outside the tracking
rows. -/
def process_sales (entries : List LoanTrackingDetail) (lines : List ResolutionLine)
    (now : Nat) : Except String (List LoanTrackingDetail) :=
  let sale_lines := lines.filter (fun l =>
    decide (l.resolution_type = some ResolutionChoice.buy))
  if sale_lines.isEmpty then .ok entries
  else
    let order_lines := create_sale_order sale_lines
    sale_lines.foldlM (fun es l =>
      update_detail es l.tracking_detail_id (fun e =>
        action_mark_as_sold e ((order_lines.filter (sol_matches l)).head?)
          (some l.unit_price) now)) entries

/-- `LoanResolutionWizard._process_returns`: write every return line's whole
tracking row to `pending_resolution` with the marker note (the write touches
`status`, so the consistency constraint runs and stamps a missing
`resolution_date`).  The return picking the wizard creates and auto-confirms is
an inventory-engine effect that does not touch the tracking rows at this stage. -/
def process_returns (entries : List LoanTrackingDetail) (lines : List ResolutionLine)
    (today : Nat) : Except String (List LoanTrackingDetail) :=
  let return_lines := lines.filter (fun l =>
    decide (l.resolution_type = some ResolutionChoice.ret))
  if return_lines.isEmpty then .ok entries
  else
    return_lines.foldlM (fun es l =>
      update_detail es l.tracking_detail_id (fun e =>
        check_resolution_consistency
          { e with
            status := .pendingResolution,
            notes := "Marcado para devolución el " ++ toString today ++
              ". Condición: " ++ l.return_condition } today)) entries

/-- `LoanResolutionWizard._process_continued_loans`: annotate each keep-loan
line's tracking row; the write touches only `notes`, so no constraint runs. -/
def process_continued_loans (entries : List LoanTrackingDetail)
    (lines : List ResolutionLine) (today : Nat) : List LoanTrackingDetail :=
  (lines.filter (fun l =>
    decide (l.resolution_type = some ResolutionChoice.keepLoan))).foldl
    (fun es l => es.map (fun e =>
      if e.id = l.tracking_detail_id then
        { e with notes := "Préstamo extendido el " ++ toString today ++
            ". Resolución: mantener en préstamo." }
      else e)) entries

/-- The wizard's `_update_original_loan_state`: `partially_resolved` when any
continued line exists, else `completed`; the write also appends to `loan_notes`
and, being a `loan_state` write on a loan, passes through the transition
validation. -/
def wizard_update_original_loan_state (p : StockPicking) (has_continued : Bool)
    (today : Nat) (wizard_notes : Option String) :
    Except (LoanState × LoanState) StockPicking :=
  match write_loan_state p
      (if has_continued then .partiallyResolved else .completed) with
  | .error err => .error err
  | .ok p' =>
    .ok { p' with
          loan_notes := p'.loan_notes ++ "\n\nResolución " ++ toString today ++
            ": " ++ py_str_or wizard_notes "Procesado" }

/-- `LoanResolutionWizard.action_process_resolution`: validate, then run sales,
returns, continued loans and the original-transfer state update in order; any
exception inside those steps is wrapped into one `UserError` with the underlying
message appended. -/
def action_process_resolution (p : StockPicking) (entries : List LoanTrackingDetail)
    (lines : List ResolutionLine) (today now : Nat) (wizard_notes : Option String) :
    Except String (List LoanTrackingDetail × StockPicking) :=
  match validate_resolution lines with
  | .error msg => .error msg
  | .ok _ =>
    let has_sales := lines.any (fun l =>
      decide (l.resolution_type = some ResolutionChoice.buy))
    let has_returns := lines.any (fun l =>
      decide (l.resolution_type = some ResolutionChoice.ret))
    let has_continued := lines.any (fun l =>
      decide (l.resolution_type = some ResolutionChoice.keepLoan))
    let step : Except String (List LoanTrackingDetail × StockPicking) :=
      match (if has_sales then process_sales entries lines now else .ok entries) with
      | .error msg => .error msg
      | .ok e1 =>
        match (if has_returns then process_returns e1 lines today else .ok e1) with
        | .error msg => .error msg
        | .ok e2 =>
          let e3 := if has_continued then process_continued_loans e2 lines today else e2
          match wizard_update_original_loan_state p has_continued today wizard_notes with
          | .error err => .error (transition_error_message err.1 err.2)
          | .ok p' => .ok (e3, p')
    match step with
    | .error msg => .error ("Error al procesar la resolución del préstamo: " ++ msg)
    | .ok r => .ok r

/-- The C1 scenario's original transfer: a confirmed loan, still in the default
`loan_state` `active`. -/
def c1_picking : StockPicking :=
  { id := 1, is_loan := true, loan_state := .active, is_overdue := false,
    loan_notes := "" }

/-- The C1 scenario's single tracking row: 3 units of the non-serial product 7. -/
def c1_entry : LoanTrackingDetail :=
  { blank_detail with id := 5, picking_id := 1, product_id := 7, quantity := 3 }

/-- The C1 scenario's wizard lines: the 3 loaned units split as 1 buy (at price
50), 1 return and 1 keep_loan, all referencing the single tracking row. -/
def c1_lines : List ResolutionLine :=
  [{ tracking_detail_id := 5, product_id := 7, tracking := .none, lot_id := none,
     lot_name := none, loaned_qty := 3, qty_to_resolve := 1,
     resolution_type := some .buy, unit_price := 50, return_condition := "good" },
   { tracking_detail_id := 5, product_id := 7, tracking := .none, lot_id := none,
     lot_name := none, loaned_qty := 3, qty_to_resolve := 1,
     resolution_type := some .ret, unit_price := 0, return_condition := "good" },
   { tracking_detail_id := 5, product_id := 7, tracking := .none, lot_id := none,
     lot_name := none, loaned_qty := 3, qty_to_resolve := 1,
     resolution_type := some .keepLoan, unit_price := 0, return_condition := "good" }]

/-- Modelled from the spec's words, for comparison with the source validation: the
three biconditionals of the tracking-consistency claim. -/
def spec_tracking_biconditionals (t : Tracking) (e : LoanTrackingDetail) : Prop :=
  (t = .serial ↔ (e.lot_id ≠ none ∧ e.quantity = 1)) ∧
  (t = .lot ↔ e.lot_id ≠ none) ∧
  (t = .none ↔ e.lot_id = none)

instance (t : Tracking) (e : LoanTrackingDetail) :
    Decidable (spec_tracking_biconditionals t e) := by
  unfold spec_tracking_biconditionals
  infer_instance

/-! ### Helper lemmas -/

theorem check_consistency_keeps_date (x : LoanTrackingDetail) (now : Nat)
    (e' : LoanTrackingDetail) (d : Nat) (hd : x.resolution_date = some d)
    (h : check_resolution_consistency x now = .ok e') : e'.resolution_date = some d := by
  unfold check_resolution_consistency at h
  split_ifs at h with h1 h2 h3 <;>
    first
      | exact Except.noConfusion h
      | exact absurd h3.2 (by simp [hd])
      | (injection h with h; subst h; exact hd)

theorem sum_quantity_cons (e : LoanTrackingDetail) (l : List LoanTrackingDetail) :
    sum_quantity (e :: l) = e.quantity + sum_quantity l := by
  simp [sum_quantity]

theorem sum_quantity_append (l₁ l₂ : List LoanTrackingDetail) :
    sum_quantity (l₁ ++ l₂) = sum_quantity l₁ + sum_quantity l₂ := by
  simp [sum_quantity]

theorem active_quantity_cons (olid pid : Nat) (e : LoanTrackingDetail)
    (l : List LoanTrackingDetail) :
    active_quantity olid pid (e :: l) =
      (if is_active_for olid pid e then e.quantity else 0) + active_quantity olid pid l := by
  by_cases h : is_active_for olid pid e <;>
    simp [active_quantity, List.filter_cons, h]

theorem active_quantity_append (olid pid : Nat) (l₁ l₂ : List LoanTrackingDetail) :
    active_quantity olid pid (l₁ ++ l₂) =
      active_quantity olid pid l₁ + active_quantity olid pid l₂ := by
  simp [active_quantity, List.filter_append]

theorem active_quantity_nonneg (olid pid : Nat) (l : List LoanTrackingDetail)
    (h : ∀ e ∈ l, 0 ≤ e.quantity) : 0 ≤ active_quantity olid pid l := by
  induction l with
  | nil => simp [active_quantity]
  | cons e t ih =>
    rw [active_quantity_cons]
    have h1 : 0 ≤ e.quantity := h e (by simp)
    have h2 := ih (fun x hx => h x (by simp [hx]))
    split_ifs <;> linarith

theorem mark_returned_auto_of_active (e : LoanTrackingDetail) (rp now : Nat)
    (h : e.status = .active) :
    mark_returned_auto e rp now =
      { e with
        status := .returnedGood,
        return_picking_id := some rp,
        resolution_date := some now,
        return_condition_notes := auto_return_notes now } := by
  have hg : status_mapping "good" = .returnedGood := rfl
  simp [mark_returned_auto, action_mark_as_returned, h, hg,
    check_resolution_consistency]

theorem is_active_for_quantity_update (olid pid : Nat) (e : LoanTrackingDetail)
    (q : ℚ) : is_active_for olid pid { e with quantity := q } = is_active_for olid pid e := rfl

theorem is_active_for_marked (olid pid : Nat) (e : LoanTrackingDetail) (rp now : Nat)
    (h : e.status = .active) :
    is_active_for olid pid (mark_returned_auto e rp now) = false := by
  rw [mark_returned_auto_of_active e rp now h]
  simp [is_active_for]

theorem is_active_for_split (olid pid : Nat) (e : LoanTrackingDetail) (part : ℚ)
    (rp now : Nat) :
    is_active_for olid pid (split_returned_copy e part rp now) = false := by
  simp [is_active_for, split_returned_copy]

theorem consume_preserves_sum (olid pid rp now : Nat)
    (entries : List LoanTrackingDetail) :
    ∀ remaining : ℚ,
      sum_quantity ((consume_active_returns olid pid rp now remaining entries).1 ++
          (consume_active_returns olid pid rp now remaining entries).2) =
        sum_quantity entries := by
  induction entries with
  | nil => intro remaining; simp [consume_active_returns, sum_quantity]
  | cons e rest ih =>
    intro remaining
    simp only [consume_active_returns]
    split_ifs with h1 h2
    · have hst : e.status = TrackStatus.active := by
        have h' := h1.1
        simp only [is_active_for, Bool.and_eq_true, beq_iff_eq] at h'
        exact h'.2
      simp [List.cons_append, sum_quantity_cons, ih,
        mark_returned_auto_of_active e rp now hst]
    · have ih0 := ih 0
      rw [sum_quantity_append] at ih0
      simp only [List.cons_append, sum_quantity_cons, sum_quantity_append,
        split_returned_copy]
      linarith [ih0]
    · simp [List.cons_append, sum_quantity_cons, ih]

theorem consume_active_quantity (olid pid rp now : Nat)
    (entries : List LoanTrackingDetail) :
    ∀ remaining : ℚ, 0 ≤ remaining → (∀ e ∈ entries, 0 ≤ e.quantity) →
      active_quantity olid pid
          ((consume_active_returns olid pid rp now remaining entries).1 ++
            (consume_active_returns olid pid rp now remaining entries).2) =
        active_quantity olid pid entries -
          min remaining (active_quantity olid pid entries) := by
  induction entries with
  | nil =>
    intro remaining h0 _
    simp [consume_active_returns, active_quantity, min_eq_right h0]
  | cons e rest ih =>
    intro remaining h0 hnn
    have hnn_rest : ∀ x ∈ rest, 0 ≤ x.quantity :=
      fun x hx => hnn x (List.mem_cons_of_mem _ hx)
    have hA : 0 ≤ active_quantity olid pid rest :=
      active_quantity_nonneg _ _ _ hnn_rest
    have hqe : 0 ≤ e.quantity := hnn e (List.mem_cons_self _ _)
    simp only [consume_active_returns]
    split_ifs with h1 h2
    · have hmatch : is_active_for olid pid e = true := h1.1
      have hst : e.status = TrackStatus.active := by
        have h' := h1.1
        simp only [is_active_for, Bool.and_eq_true, beq_iff_eq] at h'
        exact h'.2
      have h0' : 0 ≤ remaining - e.quantity := by linarith
      have ihA := ih (remaining - e.quantity) h0' hnn_rest
      rw [List.cons_append, active_quantity_cons, active_quantity_cons, ihA,
        is_active_for_marked olid pid e rp now hst, hmatch]
      have hmin : min remaining (e.quantity + active_quantity olid pid rest) =
          e.quantity + min (remaining - e.quantity) (active_quantity olid pid rest) := by
        rw [← min_add_add_left]
        congr 1
        ring
      simp only [if_true, Bool.false_eq_true, if_false]
      rw [hmin]
      ring
    · have hmatch : is_active_for olid pid e = true := h1.1
      have hlt : remaining < e.quantity := not_le.mp h2
      have ih0 := ih 0 le_rfl hnn_rest
      rw [active_quantity_append, min_eq_left hA, sub_zero] at ih0
      rw [List.cons_append, active_quantity_cons, active_quantity_append,
        active_quantity_cons, is_active_for_quantity_update, hmatch,
        is_active_for_split, active_quantity_cons, hmatch]
      have hminr : min remaining (e.quantity + active_quantity olid pid rest) =
          remaining := min_eq_left (by linarith)
      simp only [if_true, Bool.false_eq_true, if_false]
      rw [hminr]
      linarith [ih0]
    · have ihA := ih remaining h0 hnn_rest
      rw [List.cons_append, active_quantity_cons, ihA, active_quantity_cons]
      by_cases hm : is_active_for olid pid e = true
      · have hr0 : remaining = 0 :=
          le_antisymm (not_lt.mp (fun hc => h1 ⟨hm, hc⟩)) h0
        subst hr0
        rw [min_eq_left hA, min_eq_left (by rw [hm]; simp; linarith)]
        ring
      · simp only [hm, Bool.false_eq_true, if_false]
        ring_nf

theorem consume_keeps_other_rows (olid pid rp now : Nat)
    (entries : List LoanTrackingDetail) :
    ∀ remaining : ℚ, ∀ e ∈ entries, is_active_for olid pid e = false →
      e ∈ (consume_active_returns olid pid rp now remaining entries).1 := by
  induction entries with
  | nil => intro _ e he _; cases he
  | cons a rest ih =>
    intro remaining e he hnm
    rcases List.mem_cons.mp he with rfl | hmem
    · simp only [consume_active_returns]
      rw [if_neg (by simp [hnm])]
      exact List.mem_cons_self _ _
    · simp only [consume_active_returns]
      split_ifs with h1 h2 <;>
        exact List.mem_cons_of_mem _ (ih _ e hmem hnm)

theorem consume_created_rows (olid pid rp now : Nat)
    (entries : List LoanTrackingDetail) :
    ∀ remaining : ℚ,
      ∀ c ∈ (consume_active_returns olid pid rp now remaining entries).2,
        c.status = .returnedGood ∧ c.return_picking_id = some rp ∧
          c.resolution_date = some now := by
  induction entries with
  | nil => intro remaining c hc; simp [consume_active_returns] at hc
  | cons a rest ih =>
    intro remaining c hc
    simp only [consume_active_returns] at hc
    split_ifs at hc with h1 h2
    · exact ih _ c hc
    · rcases List.mem_cons.mp hc with rfl | hmem
      · simp [split_returned_copy]
      · exact ih _ c hmem
    · exact ih _ c hc

theorem update_original_state_cases (original : StockPicking)
    (l : List LoanTrackingDetail) (hloan : original.is_loan = true) :
    (l.filter (fun r => r.picking_id == original.id &&
        r.status == TrackStatus.active) = [] →
      LoanState.completed ∈ valid_transitions original.loan_state →
      update_original_loan_state_on_return original l =
        .ok { original with loan_state := .completed }) ∧
    (l.filter (fun r => r.picking_id == original.id &&
        r.status == TrackStatus.active) = [] →
      LoanState.completed ∉ valid_transitions original.loan_state →
      update_original_loan_state_on_return original l =
        .error (original.loan_state, .completed)) ∧
    (l.filter (fun r => r.picking_id == original.id &&
        r.status == TrackStatus.active) ≠ [] →
      (l.filter (fun r => r.picking_id == original.id &&
          r.status == TrackStatus.active)).length <
        (l.filter (fun r => r.picking_id == original.id)).length →
      LoanState.partiallyResolved ∈ valid_transitions original.loan_state →
      update_original_loan_state_on_return original l =
        .ok { original with loan_state := .partiallyResolved }) ∧
    (l.filter (fun r => r.picking_id == original.id &&
        r.status == TrackStatus.active) ≠ [] →
      (l.filter (fun r => r.picking_id == original.id &&
          r.status == TrackStatus.active)).length <
        (l.filter (fun r => r.picking_id == original.id)).length →
      LoanState.partiallyResolved ∉ valid_transitions original.loan_state →
      update_original_loan_state_on_return original l =
        .error (original.loan_state, .partiallyResolved)) ∧
    (l.filter (fun r => r.picking_id == original.id &&
        r.status == TrackStatus.active) ≠ [] →
      ¬ (l.filter (fun r => r.picking_id == original.id &&
          r.status == TrackStatus.active)).length <
        (l.filter (fun r => r.picking_id == original.id)).length →
      update_original_loan_state_on_return original l = .ok original) := by
  refine ⟨?_, ?_, ?_, ?_, ?_⟩
  · intro h1 h2
    simp [update_original_loan_state_on_return, h1, write_loan_state,
      validate_state_transition, hloan, h2]
  · intro h1 h2
    simp [update_original_loan_state_on_return, h1, write_loan_state,
      validate_state_transition, hloan, h2]
  · intro h1 h2 h3
    simp [update_original_loan_state_on_return, List.isEmpty_iff, h1, h2,
      write_loan_state, validate_state_transition, hloan, h3]
  · intro h1 h2 h3
    simp [update_original_loan_state_on_return, List.isEmpty_iff, h1, h2,
      write_loan_state, validate_state_transition, hloan, h3]
  · intro h1 h2
    simp [update_original_loan_state_on_return, List.isEmpty_iff, h1, h2]

theorem one_move_links_state (original : StockPicking) (rp now pid : Nat)
    (qty : ℚ) (entries : List LoanTrackingDetail) :
    (∀ p', update_original_loan_state_on_return original
        (update_non_serial_return original.id pid rp now qty entries) = .ok p' →
      update_loan_tracking_on_return_one_move original rp now pid qty entries =
        .ok (update_non_serial_return original.id pid rp now qty entries, p')) ∧
    (∀ err, update_original_loan_state_on_return original
        (update_non_serial_return original.id pid rp now qty entries) = .error err →
      update_loan_tracking_on_return_one_move original rp now pid qty entries =
        .error err) := by
  constructor
  · intro p' h
    simp only [update_loan_tracking_on_return_one_move, h]
  · intro err h
    simp only [update_loan_tracking_on_return_one_move, h]

/-! ### Claim theorems -/

/-- C2 counterexample: on a transfer that is not a loan (`is_loan = false`) the
requested transition `completed → active` is not validated and the write succeeds,
contradicting the claim that it fails on any transfer. -/
theorem C2_counterexample_nonloan_write :
    write_loan_state
        { id := 7, is_loan := false, loan_state := .completed, is_overdue := false,
          loan_notes := "" } .active =
      .ok { id := 7, is_loan := false, loan_state := .active, is_overdue := false,
            loan_notes := "" } := by
  rfl

/-- C2 (amended): for every loan transfer (`is_loan = true`), writing a new
`loan_state` succeeds exactly along the transition table, and any other requested
transition fails with a validation error carrying both the source and the target
state; non-loan transfers are not validated. -/
theorem C2_loan_transition_table (p : StockPicking) (s : LoanState)
    (h : p.is_loan = true) :
    (s ∈ valid_transitions p.loan_state →
      write_loan_state p s = .ok { p with loan_state := s }) ∧
    (s ∉ valid_transitions p.loan_state →
      write_loan_state p s = .error (p.loan_state, s)) := by
  constructor <;> intro hs <;>
    simp [write_loan_state, validate_state_transition, h, hs]

theorem C2_loan_transition_table_witness :
    ({ id := 1, is_loan := true, loan_state := .completed, is_overdue := false,
        loan_notes := "" } : StockPicking).is_loan = true ∧
    write_loan_state
        { id := 1, is_loan := true, loan_state := .completed, is_overdue := false,
          loan_notes := "" } .active =
      .error (.completed, .active) :=
  ⟨rfl,
    (C2_loan_transition_table
      { id := 1, is_loan := true, loan_state := .completed, is_overdue := false,
        loan_notes := "" } .active rfl).2 (by decide)⟩

/-- C4 counterexample: marking a `pending_resolution` entry (whose
`resolution_date` was stamped earlier, at time 5) as returned at time 9 overwrites
the already-set `resolution_date` with 9. -/
theorem C4_counterexample_restamp :
    action_mark_as_returned
        { blank_detail with status := .pendingResolution, resolution_date := some 5 }
        20 "good" none 9 =
      .ok { blank_detail with
            status := .returnedGood,
            resolution_date := some 9,
            return_picking_id := some 20 } := by
  rfl

/-- C4 (amended): `resolution_date` is stamped automatically on the first
transition out of `active` (the consistency check fills it only when unset and
never changes a set date, and `action_mark_as_sold` stamps the sale time), but
`action_mark_as_returned` always restamps `resolution_date` with the return time,
overwriting any previously set value — in particular when a `pending_resolution`
entry is marked returned. -/
theorem C4_resolution_date_stamping (e : LoanTrackingDetail) (now : Nat) :
    (∀ e', check_resolution_consistency e now = .ok e' →
        (∀ d, e.resolution_date = some d → e'.resolution_date = some d) ∧
        (e.resolution_date = none → e.status ≠ .active → e'.resolution_date = some now)) ∧
    (∀ sol price e', action_mark_as_sold e sol price now = .ok e' →
        e'.resolution_date = some now) ∧
    (∀ rp c ns e', action_mark_as_returned e rp c ns now = .ok e' →
        e'.resolution_date = some now) := by
  refine ⟨?_, ?_, ?_⟩
  · intro e' h
    constructor
    · intro d hd
      exact check_consistency_keeps_date e now e' d hd h
    · intro hnone hact
      unfold check_resolution_consistency at h
      split_ifs at h with h1 h2 h3 <;>
        first
          | exact Except.noConfusion h
          | exact absurd ⟨hact, hnone⟩ h3
          | (injection h with h; subst h; rfl)
  · intro sol price e' h
    unfold action_mark_as_sold at h
    split_ifs at h with h1
    all_goals
      first
        | exact Except.noConfusion h
        | exact check_consistency_keeps_date _ now e' now rfl h
  · intro rp c ns e' h
    unfold action_mark_as_returned at h
    split_ifs at h with h1
    all_goals
      first
        | exact Except.noConfusion h
        | exact check_consistency_keeps_date _ now e' now rfl h

theorem C4_resolution_date_stamping_witness :
    check_resolution_consistency
        { blank_detail with
          status := .sold,
          sale_order_line_id := some 4 } 3 =
      .ok { blank_detail with
            status := .sold,
            sale_order_line_id := some 4,
            resolution_date := some 3 } ∧
    ({ blank_detail with
       status := .sold,
       sale_order_line_id := some 4,
       resolution_date := some 3 } : LoanTrackingDetail).resolution_date = some 3 := by
  refine ⟨by rfl, ?_⟩
  have h := (C4_resolution_date_stamping
    { blank_detail with
      status := .sold,
      sale_order_line_id := some 4 } 3).1
    { blank_detail with
      status := .sold,
      sale_order_line_id := some 4,
      resolution_date := some 3 } (by rfl)
  exact h.2 rfl (by decide)

/-- C7 counterexample: a lot-tracked row with a lot reference and quantity 1 passes
`_check_tracking_consistency` although the claimed biconditionals fail for it
(its data satisfies the serial right-hand side while its tracking is `lot`). -/
theorem C7_counterexample_lot_qty_one :
    check_tracking_consistency .lot
        { blank_detail with lot_id := some 3, quantity := 1 } = .ok () ∧
    ¬ spec_tracking_biconditionals .lot
        { blank_detail with lot_id := some 3, quantity := 1 } :=
  ⟨by rfl, by decide⟩

/-- C7 (amended): a `TrackingEntry` write is accepted exactly when the forward
implications hold — `serial ⇒ (lot present ∧ quantity = 1)`, `lot ⇒ lot present`,
`none ⇒ lot absent` — and any write violating one of them is rejected with a
validation error; for accepted writes the biconditional `tracking = none ⇔ lot
absent` does hold (the other two hold only left-to-right). -/
theorem C7_tracking_consistency (t : Tracking) (e : LoanTrackingDetail) :
    (check_tracking_consistency t e = .ok () ↔
      ((t = .serial → e.lot_id ≠ none ∧ e.quantity = 1) ∧
       (t = .lot → e.lot_id ≠ none) ∧
       (t = .none → e.lot_id = none))) ∧
    (check_tracking_consistency t e = .ok () → (t = .none ↔ e.lot_id = none)) := by
  cases t <;> cases he : e.lot_id <;> by_cases hq : e.quantity = 1 <;>
    simp_all [check_tracking_consistency]

theorem C7_tracking_consistency_witness :
    check_tracking_consistency .serial
        { blank_detail with lot_id := some 9, quantity := 1 } = .ok () ∧
    check_tracking_consistency .none blank_detail = .ok () :=
  ⟨((C7_tracking_consistency .serial
      { blank_detail with lot_id := some 9, quantity := 1 }).1).mpr (by decide),
   ((C7_tracking_consistency .none blank_detail).1).mpr (by decide)⟩

/-- C8: when the filter domain matches no tracking rows, `get_loan_analytics`
returns every metric zeroed — in particular `conversion_rate = 0` and
`avg_days_in_loan = 0` — instead of dividing by zero, for every combination of
`date_from`, `date_to` and `partner_ids`. -/
theorem C8_analytics_zero_rows (date_from date_to : Option Nat)
    (partner_ids : Option (List Nat)) (records : List LoanTrackingDetail)
    (h : analytics_domain date_from date_to partner_ids records = []) :
    get_loan_analytics date_from date_to partner_ids records =
      { total_loans := 0, active_loans := 0, overdue_loans := 0,
        sold_conversions := 0, returns_good := 0, returns_damaged := 0,
        avg_days_in_loan := 0, conversion_rate := 0 } := by
  unfold get_loan_analytics
  rw [h]
  rfl

theorem C8_analytics_zero_rows_witness :
    analytics_domain (some 10) none (some [1, 2]) [{ blank_detail with loan_date := 5 }] = [] ∧
    get_loan_analytics (some 10) none (some [1, 2]) [{ blank_detail with loan_date := 5 }] =
      { total_loans := 0, active_loans := 0, overdue_loans := 0,
        sold_conversions := 0, returns_good := 0, returns_damaged := 0,
        avg_days_in_loan := 0, conversion_rate := 0 } :=
  ⟨by rfl,
   C8_analytics_zero_rows (some 10) none (some [1, 2])
     [{ blank_detail with loan_date := 5 }] (by rfl)⟩

/-- C9: `action_mark_as_sold` succeeds exactly on an entry whose status is
`active` — setting status `sold`, storing the sale order line and the price and
stamping `resolution_date` — and raises a usage error (aborting, so the entry is
unchanged) on an entry in any other status. -/
theorem C9_mark_as_sold_active_only (e : LoanTrackingDetail) (sol : SaleOrderLine)
    (price : Option ℚ) (now : Nat) :
    (e.status = .active →
      action_mark_as_sold e (some sol) price now =
        .ok { e with
              status := .sold,
              sale_order_line_id := some sol.id,
              sale_price := py_float_or price sol.price_unit,
              resolution_date := some now }) ∧
    (e.status ≠ .active →
      action_mark_as_sold e (some sol) price now =
        .error "Solo los préstamos activos pueden marcarse como vendidos.") := by
  constructor
  · intro h
    simp [action_mark_as_sold, h, check_resolution_consistency]
  · intro h
    simp [action_mark_as_sold, h]

theorem C9_mark_as_sold_active_only_witness :
    action_mark_as_sold blank_detail (some { id := 11, product_id := 0, price_unit := 40, name := "" })
        (some 50) 6 =
      .ok { blank_detail with
            status := .sold,
            sale_order_line_id := some 11,
            sale_price := 50,
            resolution_date := some 6 } ∧
    action_mark_as_sold { blank_detail with status := .sold, sale_order_line_id := some 11 }
        (some { id := 11, product_id := 0, price_unit := 40, name := "" }) (some 50) 6 =
      .error "Solo los préstamos activos pueden marcarse como vendidos." :=
  ⟨by
    have h := (C9_mark_as_sold_active_only blank_detail
      { id := 11, product_id := 0, price_unit := 40, name := "" } (some 50) 6).1 rfl
    rw [h]
    rfl,
   (C9_mark_as_sold_active_only
      { blank_detail with status := .sold, sale_order_line_id := some 11 }
      { id := 11, product_id := 0, price_unit := 40, name := "" } (some 50) 6).2
     (by decide)⟩

/-- C10: calling `action_mark_as_returned` on an active or pending_resolution entry
with a condition outside the mapping does not raise: the status falls back to
`returned_good`, the return transfer reference is stored and `resolution_date` is
stamped. -/
theorem C10_mark_returned_unknown_condition (e : LoanTrackingDetail) (rp : Nat)
    (c : String) (ns : Option String) (now : Nat)
    (hstatus : e.status = .active ∨ e.status = .pendingResolution)
    (h1 : c ≠ "good") (h2 : c ≠ "damaged") (h3 : c ≠ "defective") :
    action_mark_as_returned e rp c ns now =
      .ok { e with
            status := .returnedGood,
            return_picking_id := some rp,
            resolution_date := some now,
            return_condition_notes := ns.getD "" } := by
  have hm : status_mapping c = .returnedGood := by
    simp [status_mapping, h1, h2, h3]
  rcases hstatus with h | h <;>
    simp [action_mark_as_returned, h, hm, check_resolution_consistency]

theorem C10_mark_returned_unknown_condition_witness :
    action_mark_as_returned blank_detail 21 "destroyed" none 8 =
      .ok { blank_detail with
            status := .returnedGood,
            return_picking_id := some 21,
            resolution_date := some 8,
            return_condition_notes := "" } :=
  C10_mark_returned_unknown_condition blank_detail 21 "destroyed" none 8
    (Or.inl rfl) (by decide) (by decide) (by decide)

/-- C5: running the overdue sweep twice on unchanged data is not idempotent in the
code: `_create_overdue_activity` deduplicates by searching for activities whose
activity-type name matches `ilike 'préstamo vencido'`, but the activities it
creates carry the generic to-do type (`mail.mail_activity_data_todo`, named
"To-Do"), which never matches that filter — so the second run creates a second
reminder for the same overdue transfer. -/
theorem C5_overdue_sweep_duplicates :
    ((cron_check_overdue_loans c5_env).activities.filter
        (fun a => a.res_id == 1)).length = 1 ∧
    ((cron_check_overdue_loans (cron_check_overdue_loans c5_env)).activities.filter
        (fun a => a.res_id == 1)).length = 2 ∧
    ilike_contains "préstamo vencido" c5_env.todo_activity_type_name = false := by
  refine ⟨by decide, by decide, by decide⟩

/-- C6: `current_cost` is a `store=True` computed field whose dependency list is
only `product_id`, so after product 1's standard cost changes from 100 to 120 the
stored row still serves cost 100 and `valuation_difference` 0 (its
`original_cost` being 100), while the live standard cost reads 120 — the value is
served stale, refuting the claim that reads always yield the live cost. -/
theorem C6_stale_current_cost :
    ((set_standard_price c6_env 1 120).trackers.map read_current_cost) = [100] ∧
    ((set_standard_price c6_env 1 120).trackers.map (·.valuation_difference)) = [0] ∧
    ((set_standard_price c6_env 1 120).trackers.map (·.original_cost)) = [100] ∧
    (set_standard_price c6_env 1 120).standard_price 1 = 120 := by
  refine ⟨?_, ?_, ?_, ?_⟩ <;>
    (norm_num [set_standard_price, c6_env, c6_price0, create_for_loan_row,
      compute_current_cost, compute_valuation_difference, read_current_cost,
      current_cost_depends]
     try rfl)

/-- C3 counterexample: a confirmed return of the full quantity (2 units of product
7) against an original loan whose `loan_state` is `active` marks the only tracking
row returned, after which `_update_original_loan_state` assigns `completed` — but
that assignment passes through `write`'s transition validation and
`active → completed` is not in the table, so the reconciliation raises a
validation error instead of the state becoming `completed` as claimed. -/
theorem C3_counterexample_completed_write :
    update_loan_tracking_on_return_one_move
        { id := 10, is_loan := true, loan_state := .active, is_overdue := false,
          loan_notes := "" } 20 100 7 2
        [{ blank_detail with id := 1, picking_id := 10, product_id := 7, quantity := 2 }] =
      .error (.active, .completed) := by
  rfl

/-- C3 (amended): during return reconciliation, for a non-serial product on a
confirmed return transfer the original loan's active rows are consumed greedily
in listing order — the total quantity over the rows is conserved, the product's
active quantity drops by exactly the minimum of the returned quantity and the
available active quantity, rows outside the product's active set pass through
unchanged, and every row created by a split is a `returned_good` row referencing
the return transfer with the stamped resolution date.  Afterwards the code writes
`completed` (when no active rows remain) or `partially_resolved` (when some but
not all rows remain active) to the original loan, and leaves the state unchanged
otherwise — but each write passes through the loan-state transition validation,
so it succeeds only when the transition table allows it from the current state
(in particular not from `active`) and otherwise raises a validation error naming
both states. -/
theorem C3_return_reconciliation (original : StockPicking) (rp now pid : Nat)
    (qty : ℚ) (entries : List LoanTrackingDetail)
    (hloan : original.is_loan = true) (hq : 0 < qty)
    (hnn : ∀ e ∈ entries, 0 ≤ e.quantity) :
    sum_quantity (update_non_serial_return original.id pid rp now qty entries) =
        sum_quantity entries ∧
    active_quantity original.id pid
        (update_non_serial_return original.id pid rp now qty entries) =
      active_quantity original.id pid entries -
        min qty (active_quantity original.id pid entries) ∧
    (∀ e ∈ entries, is_active_for original.id pid e = false →
      e ∈ update_non_serial_return original.id pid rp now qty entries) ∧
    (∀ c ∈ (consume_active_returns original.id pid rp now qty entries).2,
      c.status = .returnedGood ∧ c.return_picking_id = some rp ∧
        c.resolution_date = some now) ∧
    ((update_non_serial_return original.id pid rp now qty entries).filter
        (fun r => r.picking_id == original.id && r.status == TrackStatus.active) = [] →
      LoanState.completed ∈ valid_transitions original.loan_state →
      update_loan_tracking_on_return_one_move original rp now pid qty entries =
        .ok (update_non_serial_return original.id pid rp now qty entries,
          { original with loan_state := .completed })) ∧
    ((update_non_serial_return original.id pid rp now qty entries).filter
        (fun r => r.picking_id == original.id && r.status == TrackStatus.active) = [] →
      LoanState.completed ∉ valid_transitions original.loan_state →
      update_loan_tracking_on_return_one_move original rp now pid qty entries =
        .error (original.loan_state, .completed)) ∧
    ((update_non_serial_return original.id pid rp now qty entries).filter
        (fun r => r.picking_id == original.id && r.status == TrackStatus.active) ≠ [] →
      ((update_non_serial_return original.id pid rp now qty entries).filter
        (fun r => r.picking_id == original.id && r.status == TrackStatus.active)).length <
        ((update_non_serial_return original.id pid rp now qty entries).filter
          (fun r => r.picking_id == original.id)).length →
      LoanState.partiallyResolved ∈ valid_transitions original.loan_state →
      update_loan_tracking_on_return_one_move original rp now pid qty entries =
        .ok (update_non_serial_return original.id pid rp now qty entries,
          { original with loan_state := .partiallyResolved })) ∧
    ((update_non_serial_return original.id pid rp now qty entries).filter
        (fun r => r.picking_id == original.id && r.status == TrackStatus.active) ≠ [] →
      ((update_non_serial_return original.id pid rp now qty entries).filter
        (fun r => r.picking_id == original.id && r.status == TrackStatus.active)).length <
        ((update_non_serial_return original.id pid rp now qty entries).filter
          (fun r => r.picking_id == original.id)).length →
      LoanState.partiallyResolved ∉ valid_transitions original.loan_state →
      update_loan_tracking_on_return_one_move original rp now pid qty entries =
        .error (original.loan_state, .partiallyResolved)) ∧
    ((update_non_serial_return original.id pid rp now qty entries).filter
        (fun r => r.picking_id == original.id && r.status == TrackStatus.active) ≠ [] →
      ¬ ((update_non_serial_return original.id pid rp now qty entries).filter
        (fun r => r.picking_id == original.id && r.status == TrackStatus.active)).length <
        ((update_non_serial_return original.id pid rp now qty entries).filter
          (fun r => r.picking_id == original.id)).length →
      update_loan_tracking_on_return_one_move original rp now pid qty entries =
        .ok (update_non_serial_return original.id pid rp now qty entries, original)) := by
  have hpos : ¬ qty ≤ 0 := not_le.mpr hq
  have hunfold : update_non_serial_return original.id pid rp now qty entries =
      (consume_active_returns original.id pid rp now qty entries).1 ++
        (consume_active_returns original.id pid rp now qty entries).2 := by
    simp [update_non_serial_return, hpos]
  have hcases := update_original_state_cases original
    (update_non_serial_return original.id pid rp now qty entries) hloan
  have hlink := one_move_links_state original rp now pid qty entries
  refine ⟨?_, ?_, ?_, ?_, ?_, ?_, ?_, ?_, ?_⟩
  · rw [hunfold]
    exact consume_preserves_sum original.id pid rp now entries qty
  · rw [hunfold]
    exact consume_active_quantity original.id pid rp now entries qty hq.le hnn
  · intro e he hnm
    rw [hunfold]
    exact List.mem_append_left _
      (consume_keeps_other_rows original.id pid rp now entries qty e he hnm)
  · exact consume_created_rows original.id pid rp now entries qty
  · intro h1 h2
    exact hlink.1 _ (hcases.1 h1 h2)
  · intro h1 h2
    exact hlink.2 _ (hcases.2.1 h1 h2)
  · intro h1 h2 h3
    exact hlink.1 _ (hcases.2.2.1 h1 h2 h3)
  · intro h1 h2 h3
    exact hlink.2 _ (hcases.2.2.2.1 h1 h2 h3)
  · intro h1 h2
    exact hlink.1 _ (hcases.2.2.2.2 h1 h2)

theorem C3_return_reconciliation_witness :
    (0:ℚ) < 2 ∧
    sum_quantity (update_non_serial_return 10 7 20 100 2
        [{ blank_detail with id := 1, picking_id := 10, product_id := 7, quantity := 2 },
         { blank_detail with id := 2, picking_id := 10, product_id := 7, quantity := 1 }]) =
      sum_quantity
        [{ blank_detail with id := 1, picking_id := 10, product_id := 7, quantity := 2 },
         { blank_detail with id := 2, picking_id := 10, product_id := 7, quantity := 1 }] :=
  ⟨two_pos,
    (C3_return_reconciliation
      { id := 10, is_loan := true, loan_state := .resolving, is_overdue := false,
        loan_notes := "" } 20 100 7 2
      [{ blank_detail with id := 1, picking_id := 10, product_id := 7, quantity := 2 },
       { blank_detail with id := 2, picking_id := 10, product_id := 7, quantity := 1 }]
      rfl two_pos (by
        intro e he
        simp only [List.mem_cons, List.not_mem_nil, or_false] at he
        rcases he with rfl | rfl <;> norm_num [blank_detail])).1⟩

/-- C1: running the resolution workflow on a confirmed loan of 3 units of a
non-serial product (one active tracking row of quantity 3) with the split
1 buy / 1 return / 1 keep_loan does not produce the claimed one sold + one
pending_resolution + one active rows with `loan_state = partially_resolved`.
Instead: `_process_sales` marks the WHOLE row sold ignoring `qty_to_resolve`,
`_process_returns` then overwrites the same row to `pending_resolution` (no
quantity splitting happens anywhere), and the final `loan_state` write
`active → partially_resolved` is rejected by the transition validator, so the
submission raises a wrapped user error. -/
theorem C1_resolution_run :
    process_sales [c1_entry] c1_lines 100 =
      .ok [{ c1_entry with
             status := .sold, sale_order_line_id := some 1000, sale_price := 50,
             resolution_date := some 100 }] ∧
    process_returns
        [{ c1_entry with
           status := .sold, sale_order_line_id := some 1000, sale_price := 50,
           resolution_date := some 100 }] c1_lines 200 =
      .ok [{ c1_entry with
             status := .pendingResolution, sale_order_line_id := some 1000,
             sale_price := 50, resolution_date := some 100,
             notes := "Marcado para devolución el 200. Condición: good" }] ∧
    process_continued_loans
        [{ c1_entry with
           status := .pendingResolution, sale_order_line_id := some 1000,
           sale_price := 50, resolution_date := some 100,
           notes := "Marcado para devolución el 200. Condición: good" }] c1_lines 200 =
      [{ c1_entry with
         status := .pendingResolution, sale_order_line_id := some 1000,
         sale_price := 50, resolution_date := some 100,
         notes := "Préstamo extendido el 200. Resolución: mantener en préstamo." }] ∧
    action_process_resolution c1_picking [c1_entry] c1_lines 200 100 none =
      .error ("Error al procesar la resolución del préstamo: " ++
        "Transición de estado no válida: active → partially_resolved") := by
  refine ⟨?_, ?_, ?_, ?_⟩ <;> rfl
